import Mathlib

/-!
Verification of the attention-monitoring core of `app.py`
(Enhaced_Study_Attention_Monitoring repository).

The per-frame pipeline of `generate_frames`, the detector helpers
(`eye_aspect_ratio`, `detect_nodding`, the inlined drowsiness and yawning
blocks), the session aggregator (`update_session_stats`, the flush in
`end_session`) and the reset in `start_session` are shallowly embedded.
Real-valued quantities are modelled by rationals; landmark-derived signals
(per-frame average EAR, raw MAR, chin y-coordinate, head deviation) and the
external collaborators (face detector, optional yawn classifier) are inputs
of each frame.
-/

namespace AttentionMonitor

/-- The attentional states produced by the pipeline.  `distracted` never
comes out of the arbiter but is handled by the aggregator's flush branch
(`last_state in ['not_present', 'distracted']` in `update_session_stats`). -/
inductive Status where
  | focused
  | drowsy
  | yawning
  | not_present
  | distracted
deriving DecidableEq, Repr

/-- The module-level `session_stats` dictionary of `app.py`. -/
structure SessionStats where
  yawn_count : ℕ
  drowsy_count : ℕ
  distraction_count : ℕ
  not_present_count : ℕ
  focused_time : ℚ
  distracted_time : ℚ
  drowsy_time : ℚ
  not_present_time : ℚ
  last_state : Status
  state_start_time : ℚ
deriving DecidableEq, Repr

/-- The module-level detector state of `app.py` (lines 216-261):
`yawn_counter`, `last_attentive_time`, `yawn_probs`, `drowsy_counter`,
`drowsiness_score`, `recent_ear_values`, `chin_positions`,
`nodding_counter`, `mar_list` and the aggregator's `session_stats`. -/
structure AppState where
  yawn_counter : ℕ
  last_attentive_time : ℚ
  yawn_probs : List ℚ
  drowsy_counter : ℕ
  drowsiness_score : ℤ
  recent_ear_values : List ℚ
  chin_positions : List ℚ
  nodding_counter : ℤ
  mar_list : List ℚ
  stats : SessionStats
deriving DecidableEq, Repr

/-- The per-frame signals the pipeline consumes.  `avgEar` is the
per-frame `(left_ear + right_ear) / 2`, `deviation` the head deviation in
pixels, `mar` the raw mouth aspect ratio, `mouthNonempty` whether the
cropped mouth image is nonempty, `modelProb` the classifier output
(`none` when the model is absent or its prediction raised), `now` the
wall-clock time of the frame. -/
structure FrameInput where
  faceFound : Bool
  deviation : ℚ
  avgEar : ℚ
  chinY : ℚ
  mar : ℚ
  mouthNonempty : Bool
  modelProb : Option ℚ
  now : ℚ
deriving DecidableEq, Repr

/-- The per-frame snapshot written into `current_status`. -/
structure AttentionStatus where
  status : Status
  confidence : ℚ
  faceFound : Bool
  faceForward : Bool
  timestamp : ℚ
deriving DecidableEq, Repr

/-- Append a value to a window; if the window then exceeds `cap` elements
drop the oldest (the Python `append` / `pop(0)` idiom used for
`mar_list`, `recent_ear_values`, `yawn_probs` and `chin_positions`). -/
def pushCap (cap : ℕ) (x : ℚ) (xs : List ℚ) : List ℚ :=
  let ys := xs ++ [x]
  if ys.length > cap then ys.tail else ys

/-- `sum(xs) / len(xs)` (all call sites use nonempty windows). -/
def listMean (xs : List ℚ) : ℚ :=
  xs.sum / xs.length

/-- Python `max` of a nonempty list (0 on the empty list). -/
def listMax : List ℚ → ℚ
  | [] => 0
  | x :: xs => xs.foldl max x

/-- Python `min` of a nonempty list (0 on the empty list). -/
def listMin : List ℚ → ℚ
  | [] => 0
  | x :: xs => xs.foldl min x

/-- Python `xs[-n:]`, the `n` most recent samples of the window. -/
def lastN (n : ℕ) (xs : List ℚ) : List ℚ :=
  xs.drop (xs.length - n)

/-- Result of the drowsiness block of `generate_frames`
(lines 480-511): updated EAR window, score, consecutive counter, whether
drowsiness fired on this frame, and the confidence it set. -/
structure DrowsyResult where
  recent : List ℚ
  score : ℤ
  counter : ℕ
  fired : Bool
  conf : ℚ
deriving DecidableEq, Repr

/-- The drowsiness block of `generate_frames` (lines 480-511).
`DROWSY_EAR_THRESHOLD = 0.27`, `DROWSY_CONSEC_FRAMES = 10`. -/
def drowsyBlock (avgEar : ℚ) (recent0 : List ℚ) (score0 : ℤ) (counter0 : ℕ) :
    DrowsyResult :=
  let recent := pushCap 10 avgEar recent0
  let e := listMean recent
  let sc :=
    if e < 27/100 then (score0 + 3, counter0 + 1)
    else if e < 32/100 then (score0 + 1, counter0 + 1)
    else if e > 35/100 then (max 0 (score0 - 3), 0)
    else (max 0 (score0 - 1), 0)
  if (20 < sc.1 ∧ e < 32/100) ∨ 10 ≤ sc.2 then
    ⟨recent, sc.1, sc.2, true, min 1 ((sc.1 : ℚ) / 25)⟩
  else
    ⟨recent, if e > 33/100 then max 0 (sc.1 - 2) else sc.1, sc.2, false, 0⟩

/-- Result of `detect_nodding`: updated chin window, updated counter and
the returned boolean. -/
structure NodResult where
  positions : List ℚ
  counter : ℤ
  fired : Bool
deriving DecidableEq, Repr

/-- `detect_nodding` of `app.py` (lines 290-315).
`NODDING_THRESHOLD = 15`. -/
def detectNodding (chinY : ℚ) (positions0 : List ℚ) (counter0 : ℤ) :
    NodResult :=
  let positions := pushCap 10 chinY positions0
  if 5 ≤ positions.length then
    let recentPositions := lastN 5 positions
    let movementRange := listMax recentPositions - listMin recentPositions
    let counter := if movementRange > 15 then counter0 + 1 else max 0 (counter0 - 1)
    ⟨positions, counter, decide (counter > 5)⟩
  else
    ⟨positions, counter0, false⟩

/-- Result of the yawning block of `generate_frames`: updated MAR window,
probability window, consecutive counter, whether yawning fired, and the
confidence it set. -/
structure YawnResult where
  marList : List ℚ
  probs : List ℚ
  counter : ℕ
  fired : Bool
  conf : ℚ
deriving DecidableEq, Repr

/-- The yawning block of `generate_frames` (lines 527-579) together with
`smoothed_mar` (window 5).  `YAWN_THRESHOLD = 0.85`,
`YAWN_CONSEC_FRAMES = 17`; with no classifier the probability is the
geometric fallback `min(1, max(0, (mar - 0.5) * 2))` of the smoothed MAR. -/
def yawnBlock (mouthNonempty : Bool) (mar : ℚ) (modelProb : Option ℚ)
    (marList0 probs0 : List ℚ) (counter0 : ℕ) : YawnResult :=
  if mouthNonempty then
    let marList := pushCap 5 mar marList0
    let marS := listMean marList
    if marS > 2/5 then
      let prob :=
        match modelProb with
        | some p => p
        | none => min 1 (max 0 ((marS - 1/2) * 2))
      let probs := pushCap 10 prob probs0
      let avgProb := listMean probs
      let counter1 := if avgProb > 85/100 then counter0 + 1 else 0
      if 17 ≤ counter1 then
        ⟨marList, probs, 0, true, avgProb⟩
      else
        ⟨marList, probs, counter1, false, 0⟩
    else
      ⟨marList, probs0, 0, false, 0⟩
  else
    ⟨marList0, probs0, 0, false, 0⟩

/-- `update_session_stats` of `app.py` (lines 319-347). -/
def update_session_stats (now : ℚ) (newStatus : Status) (st : SessionStats) :
    SessionStats :=
  let timeInState := now - st.state_start_time
  let st1 :=
    match st.last_state with
    | Status.focused => { st with focused_time := st.focused_time + timeInState }
    | Status.not_present => { st with distracted_time := st.distracted_time + timeInState }
    | Status.distracted => { st with distracted_time := st.distracted_time + timeInState }
    | Status.drowsy => { st with drowsy_time := st.drowsy_time + timeInState }
    | Status.yawning => { st with drowsy_time := st.drowsy_time + timeInState }
  let st2 :=
    if newStatus ≠ st1.last_state then
      match newStatus with
      | Status.yawning => { st1 with yawn_count := st1.yawn_count + 1 }
      | Status.drowsy => { st1 with drowsy_count := st1.drowsy_count + 1 }
      | Status.not_present => { st1 with distraction_count := st1.distraction_count + 1 }
      | _ => st1
    else st1
  { st2 with last_state := newStatus, state_start_time := now }

/-- The final flush of `end_session` (lines 712-724): the open interval of
the current state is added to its bucket; nothing else changes. -/
def endSessionFlush (now : ℚ) (st : SessionStats) : SessionStats :=
  let timeInState := now - st.state_start_time
  match st.last_state with
  | Status.focused => { st with focused_time := st.focused_time + timeInState }
  | Status.not_present => { st with distracted_time := st.distracted_time + timeInState }
  | Status.distracted => { st with distracted_time := st.distracted_time + timeInState }
  | Status.drowsy => { st with drowsy_time := st.drowsy_time + timeInState }
  | Status.yawning => { st with drowsy_time := st.drowsy_time + timeInState }

/-- The fresh `session_stats` dictionary built by `start_session`
(lines 635-646) and at module load (lines 246-257). -/
def initSessionStats (t0 : ℚ) : SessionStats :=
  { yawn_count := 0, drowsy_count := 0, distraction_count := 0,
    not_present_count := 0, focused_time := 0, distracted_time := 0,
    drowsy_time := 0, not_present_time := 0,
    last_state := Status.focused, state_start_time := t0 }

/-- `start_session` (lines 630-646) as it acts on the monitoring state: it
rebuilds `session_stats` and touches nothing else. -/
def startSessionReset (now : ℚ) (s : AppState) : AppState :=
  { s with stats := initSessionStats now }

/-- The module-level initial state (lines 216-261): empty windows, zero
counters and score, `last_attentive_time = time.time()` at load time `t0`. -/
def initState (t0 : ℚ) : AppState :=
  { yawn_counter := 0, last_attentive_time := t0, yawn_probs := [],
    drowsy_counter := 0, drowsiness_score := 0, recent_ear_values := [],
    chin_positions := [], nodding_counter := 0, mar_list := [],
    stats := initSessionStats t0 }

/-- One pass of the body of the `while True` loop of `generate_frames`
(lines 434-612): face-orientation check, drowsiness block, nodding block,
yawning block, absence check (threshold `NOT_ATTENTIVE_THRESHOLD = 3`),
then `update_session_stats`.  `status` follows the Python variable: it is
successively overwritten by each block that fires. -/
def frameStep (inp : FrameInput) (s : AppState) : AppState × AttentionStatus :=
  let faceForward : Bool :=
    if inp.faceFound then !(decide (inp.deviation > 25)) else true
  let lastAttentive :=
    if inp.faceFound && faceForward then inp.now else s.last_attentive_time
  let d : DrowsyResult :=
    if inp.faceFound then
      drowsyBlock inp.avgEar s.recent_ear_values s.drowsiness_score s.drowsy_counter
    else
      ⟨s.recent_ear_values, s.drowsiness_score, s.drowsy_counter, false, 0⟩
  let status1 := if d.fired then Status.drowsy else Status.focused
  let conf1 : ℚ := if d.fired then d.conf else 0
  let n : NodResult :=
    if inp.faceFound then
      detectNodding inp.chinY s.chin_positions s.nodding_counter
    else
      ⟨s.chin_positions, s.nodding_counter, false⟩
  let status2 := if n.fired then Status.drowsy else status1
  let conf2 := if n.fired then 1 else conf1
  let noddingCounter := if n.fired then 0 else n.counter
  let y : YawnResult :=
    if inp.faceFound then
      yawnBlock inp.mouthNonempty inp.mar inp.modelProb s.mar_list s.yawn_probs s.yawn_counter
    else
      ⟨s.mar_list, s.yawn_probs, s.yawn_counter, false, 0⟩
  let status3 := if y.fired then Status.yawning else status2
  let conf3 := if y.fired then y.conf else conf2
  let absent : Bool :=
    (!inp.faceFound || !faceForward) && decide (inp.now - lastAttentive > 3)
  let status4 := if absent then Status.not_present else status3
  let conf4 := if absent then 1 else conf3
  let stats := update_session_stats inp.now status4 s.stats
  ({ yawn_counter := y.counter, last_attentive_time := lastAttentive,
     yawn_probs := y.probs, drowsy_counter := d.counter,
     drowsiness_score := d.score, recent_ear_values := d.recent,
     chin_positions := n.positions, nodding_counter := noddingCounter,
     mar_list := y.marList, stats := stats },
   { status := status4, confidence := conf4, faceFound := inp.faceFound,
     faceForward := faceForward, timestamp := inp.now })

/-- Fold `frameStep` over a list of frames, keeping the state. -/
def runFrames (inps : List FrameInput) (s : AppState) : AppState :=
  inps.foldl (fun st i => (frameStep i st).1) s

/-- The list of statuses reported frame by frame. -/
def statusTrace : List FrameInput → AppState → List Status
  | [], _ => []
  | i :: is, s => (frameStep i s).2.status :: statusTrace is (frameStep i s).1

/-- The drowsiness detector's firing signal on this frame (the condition
under which lines 503-507 set `status = 'drowsy'`). -/
def drowsySignal (inp : FrameInput) (s : AppState) : Bool :=
  inp.faceFound &&
    (drowsyBlock inp.avgEar s.recent_ear_values s.drowsiness_score s.drowsy_counter).fired

/-- The nodding detector's firing signal on this frame (the condition under
which lines 518-523 set `status = 'drowsy'`). -/
def nodSignal (inp : FrameInput) (s : AppState) : Bool :=
  inp.faceFound && (detectNodding inp.chinY s.chin_positions s.nodding_counter).fired

/-- The yawning detector's firing signal on this frame (the condition under
which lines 570-575 set `status = 'yawning'`). -/
def yawnSignal (inp : FrameInput) (s : AppState) : Bool :=
  inp.faceFound &&
    (yawnBlock inp.mouthNonempty inp.mar inp.modelProb s.mar_list s.yawn_probs s.yawn_counter).fired

/-- The face-forward flag of this frame (lines 453-462). -/
def faceForwardSignal (inp : FrameInput) : Bool :=
  if inp.faceFound then !(decide (inp.deviation > 25)) else true

/-- The absence signal of this frame (lines 584-589), evaluated after
`last_attentive_time` has been refreshed by a forward face. -/
def absentSignal (inp : FrameInput) (s : AppState) : Bool :=
  let ff := faceForwardSignal inp
  let la := if inp.faceFound && ff then inp.now else s.last_attentive_time
  (!inp.faceFound || !ff) && decide (inp.now - la > 3)

/-- Sequence of aggregator updates: each element is the time and status of
one frame, fed to `update_session_stats` in order. -/
def runUpdates : List (ℚ × Status) → SessionStats → SessionStats
  | [], st => st
  | u :: us, st => runUpdates us (update_session_stats u.1 u.2 st)

/-- The sum of the four per-state cumulative duration buckets. -/
def bucketSum (st : SessionStats) : ℚ :=
  st.focused_time + st.distracted_time + st.drowsy_time + st.not_present_time

/-- Number of transition edges into state `q` along a status sequence,
starting from a previous state. -/
def countEdgesInto (q : Status) : Status → List Status → ℕ
  | _, [] => 0
  | prev, x :: xs => (if x = q ∧ x ≠ prev then 1 else 0) + countEdgesInto q x xs

/-- Iterate `detect_nodding` over a sequence of chin samples, carrying the
window and the counter. -/
def nodRunState : List ℚ → List ℚ × ℤ → List ℚ × ℤ
  | [], pc => pc
  | y :: ys, pc =>
    let r := detectNodding y pc.1 pc.2
    nodRunState ys (r.positions, r.counter)

/-- The returned booleans of iterated `detect_nodding` calls. -/
def nodTrace : List ℚ → List ℚ × ℤ → List Bool
  | [], _ => []
  | y :: ys, pc =>
    let r := detectNodding y pc.1 pc.2
    r.fired :: nodTrace ys (r.positions, r.counter)

/-- The chin oscillation hypothesis of the spec: every sample of the
sequence yields an evaluation window (≥ 5 samples after appending) whose
range exceeds the 15-pixel threshold. -/
def sustainedLarge : List ℚ → List ℚ → Bool
  | [], _ => true
  | y :: ys, pos =>
    let pos' := pushCap 10 y pos
    decide (5 ≤ pos'.length) &&
      decide (listMax (lastN 5 pos') - listMin (lastN 5 pos') > 15) &&
      sustainedLarge ys pos'

/-! ### Aggregator step lemmas -/

theorem uss_state_start_time (now : ℚ) (q : Status) (st : SessionStats) :
    (update_session_stats now q st).state_start_time = now := by
  cases hl : st.last_state <;> simp only [update_session_stats, hl]

theorem uss_last_state (now : ℚ) (q : Status) (st : SessionStats) :
    (update_session_stats now q st).last_state = q := by
  cases hl : st.last_state <;> simp only [update_session_stats, hl]

theorem uss_bucketSum (now : ℚ) (q : Status) (st : SessionStats) :
    bucketSum (update_session_stats now q st) =
      bucketSum st + (now - st.state_start_time) := by
  cases hl : st.last_state <;> cases q <;>
    simp [update_session_stats, bucketSum, hl] <;> ring

theorem endFlush_bucketSum (now : ℚ) (st : SessionStats) :
    bucketSum (endSessionFlush now st) =
      bucketSum st + (now - st.state_start_time) := by
  cases hl : st.last_state <;> simp [endSessionFlush, bucketSum, hl] <;> ring

theorem runUpdates_invariant (us : List (ℚ × Status)) (st : SessionStats) :
    bucketSum (runUpdates us st) - (runUpdates us st).state_start_time =
      bucketSum st - st.state_start_time := by
  induction us generalizing st with
  | nil => rfl
  | cons u us ih =>
    rw [runUpdates, ih]
    rw [uss_bucketSum, uss_state_start_time]
    ring

theorem uss_counts (now : ℚ) (q : Status) (st : SessionStats) :
    (update_session_stats now q st).yawn_count =
        st.yawn_count + (if q = Status.yawning ∧ q ≠ st.last_state then 1 else 0) ∧
      (update_session_stats now q st).drowsy_count =
        st.drowsy_count + (if q = Status.drowsy ∧ q ≠ st.last_state then 1 else 0) ∧
      (update_session_stats now q st).distraction_count =
        st.distraction_count + (if q = Status.not_present ∧ q ≠ st.last_state then 1 else 0) ∧
      (update_session_stats now q st).not_present_count = st.not_present_count := by
  cases hl : st.last_state <;> cases q <;> simp [update_session_stats, hl]

theorem runUpdates_yawn_count (us : List (ℚ × Status)) (st : SessionStats) :
    (runUpdates us st).yawn_count =
      st.yawn_count + countEdgesInto Status.yawning st.last_state (us.map Prod.snd) := by
  induction us generalizing st with
  | nil => simp [runUpdates, countEdgesInto]
  | cons u us ih =>
    rw [runUpdates, ih, List.map_cons, countEdgesInto,
      (uss_counts u.1 u.2 st).1, uss_last_state]
    ring

theorem runUpdates_drowsy_count (us : List (ℚ × Status)) (st : SessionStats) :
    (runUpdates us st).drowsy_count =
      st.drowsy_count + countEdgesInto Status.drowsy st.last_state (us.map Prod.snd) := by
  induction us generalizing st with
  | nil => simp [runUpdates, countEdgesInto]
  | cons u us ih =>
    rw [runUpdates, ih, List.map_cons, countEdgesInto,
      (uss_counts u.1 u.2 st).2.1, uss_last_state]
    ring

theorem runUpdates_distraction_count (us : List (ℚ × Status)) (st : SessionStats) :
    (runUpdates us st).distraction_count =
      st.distraction_count + countEdgesInto Status.not_present st.last_state (us.map Prod.snd) := by
  induction us generalizing st with
  | nil => simp [runUpdates, countEdgesInto]
  | cons u us ih =>
    rw [runUpdates, ih, List.map_cons, countEdgesInto,
      (uss_counts u.1 u.2 st).2.2.1, uss_last_state]
    ring

theorem uss_not_present_fields (now : ℚ) (q : Status) (st : SessionStats) :
    (update_session_stats now q st).not_present_time = st.not_present_time ∧
      (update_session_stats now q st).not_present_count = st.not_present_count := by
  cases hl : st.last_state <;> cases q <;> simp [update_session_stats, hl]

theorem endFlush_not_present_fields (now : ℚ) (st : SessionStats) :
    (endSessionFlush now st).not_present_time = st.not_present_time ∧
      (endSessionFlush now st).not_present_count = st.not_present_count := by
  cases hl : st.last_state <;> simp [endSessionFlush, hl]

theorem runUpdates_not_present_fields (us : List (ℚ × Status)) (st : SessionStats) :
    (runUpdates us st).not_present_time = st.not_present_time ∧
      (runUpdates us st).not_present_count = st.not_present_count := by
  induction us generalizing st with
  | nil => exact ⟨rfl, rfl⟩
  | cons u us ih =>
    rw [runUpdates]
    exact ⟨((ih _).1).trans (uss_not_present_fields u.1 u.2 st).1,
      ((ih _).2).trans (uss_not_present_fields u.1 u.2 st).2⟩

/-! ### Window and nodding lemmas -/

theorem pushCap_length_le (cap : ℕ) (x : ℚ) (xs : List ℚ)
    (h : xs.length ≤ cap) : (pushCap cap x xs).length ≤ cap := by
  simp only [pushCap]
  split
  · simpa using h
  · next h2 => omega

theorem detectNodding_counter_nonneg (y : ℚ) (pos : List ℚ) (c : ℤ)
    (h : 0 ≤ c) : 0 ≤ (detectNodding y pos c).counter := by
  simp only [detectNodding]
  split
  · dsimp only
    split
    · omega
    · exact le_max_left 0 _
  · exact h

theorem detectNodding_step (y : ℚ) (pos : List ℚ) (c : ℤ)
    (h : 5 ≤ (pushCap 10 y pos).length) :
    (detectNodding y pos c).counter =
        (if listMax (lastN 5 (pushCap 10 y pos)) - listMin (lastN 5 (pushCap 10 y pos)) > 15
         then c + 1 else max 0 (c - 1)) ∧
      ((detectNodding y pos c).fired = true ↔ (detectNodding y pos c).counter > 5) := by
  constructor
  · simp only [detectNodding, if_pos h]
  · simp only [detectNodding, if_pos h]
    exact decide_eq_true_iff

theorem detectNodding_large (y : ℚ) (pos : List ℚ) (c : ℤ)
    (h5 : 5 ≤ (pushCap 10 y pos).length)
    (hr : listMax (lastN 5 (pushCap 10 y pos)) - listMin (lastN 5 (pushCap 10 y pos)) > 15) :
    detectNodding y pos c = ⟨pushCap 10 y pos, c + 1, decide (c + 1 > 5)⟩ := by
  simp only [detectNodding, if_pos h5, if_pos hr]

theorem nodRunState_counter (ys : List ℚ) (pos : List ℚ) (c : ℤ)
    (h : sustainedLarge ys pos = true) :
    (nodRunState ys (pos, c)).2 = c + ys.length := by
  induction ys generalizing pos c with
  | nil => simp [nodRunState]
  | cons y ys ih =>
    rw [sustainedLarge] at h
    simp only [Bool.and_eq_true, decide_eq_true_eq] at h
    obtain ⟨⟨h5, hr⟩, hrest⟩ := h
    rw [nodRunState]
    simp only [detectNodding_large y pos c h5 hr]
    rw [ih _ _ hrest]
    simp only [List.length_cons]
    push_cast
    ring

theorem nodTrace_getLast (ys : List ℚ) (pos : List ℚ) (c : ℤ)
    (h : sustainedLarge ys pos = true) (hne : ys ≠ [])
    (hc : 5 < c + ys.length) :
    (nodTrace ys (pos, c)).getLast? = some true := by
  induction ys generalizing pos c with
  | nil => exact absurd rfl hne
  | cons y ys ih =>
    rw [sustainedLarge] at h
    simp only [Bool.and_eq_true, decide_eq_true_eq] at h
    obtain ⟨⟨h5, hr⟩, hrest⟩ := h
    rw [nodTrace]
    simp only [detectNodding_large y pos c h5 hr]
    cases ys with
    | nil =>
      have hlt : (5 : ℤ) < c + 1 := by
        simp only [List.length_cons, List.length_nil] at hc
        omega
      simp only [nodTrace, List.getLast?_singleton, Option.some.injEq]
      exact decide_eq_true hlt
    | cons z zs =>
      have hstep : nodTrace (z :: zs) (pushCap 10 y pos, c + 1) =
          (detectNodding z (pushCap 10 y pos) (c + 1)).fired ::
            nodTrace zs ((detectNodding z (pushCap 10 y pos) (c + 1)).positions,
              (detectNodding z (pushCap 10 y pos) (c + 1)).counter) := rfl
      rw [hstep, List.getLast?_cons_cons, ← hstep]
      apply ih _ _ hrest (by simp)
      simp only [List.length_cons] at hc ⊢
      push_cast at hc ⊢
      omega

/-! ### Detector-block characterizations -/

/-- Spec-side (§4.3) four-band score update, as the claim words it. -/
def specBandScore (e : ℚ) (score : ℤ) : ℤ :=
  if e < 27/100 then score + 3
  else if e < 32/100 then score + 1
  else if e > 35/100 then max 0 (score - 3)
  else max 0 (score - 1)

/-- Spec-side (§4.3) consecutive-count update. -/
def specBandCount (e : ℚ) (count : ℕ) : ℕ :=
  if e < 32/100 then count + 1 else 0

theorem drowsyBlock_spec (av : ℚ) (r0 : List ℚ) (s0 : ℤ) (c0 : ℕ) :
    (drowsyBlock av r0 s0 c0).recent = pushCap 10 av r0 ∧
    (drowsyBlock av r0 s0 c0).counter = specBandCount (listMean (pushCap 10 av r0)) c0 ∧
    ((drowsyBlock av r0 s0 c0).fired = true ↔
      ((20 < specBandScore (listMean (pushCap 10 av r0)) s0 ∧
          listMean (pushCap 10 av r0) < 32/100) ∨
        10 ≤ specBandCount (listMean (pushCap 10 av r0)) c0)) ∧
    (drowsyBlock av r0 s0 c0).score =
      (if ((20 < specBandScore (listMean (pushCap 10 av r0)) s0 ∧
              listMean (pushCap 10 av r0) < 32/100) ∨
            10 ≤ specBandCount (listMean (pushCap 10 av r0)) c0)
       then specBandScore (listMean (pushCap 10 av r0)) s0
       else if listMean (pushCap 10 av r0) > 33/100
       then max 0 (specBandScore (listMean (pushCap 10 av r0)) s0 - 2)
       else specBandScore (listMean (pushCap 10 av r0)) s0) ∧
    ((drowsyBlock av r0 s0 c0).fired = true →
      (drowsyBlock av r0 s0 c0).conf =
        min 1 ((specBandScore (listMean (pushCap 10 av r0)) s0 : ℚ) / 25)) := by
  simp only [drowsyBlock, specBandScore, specBandCount]
  set e := listMean (pushCap 10 av r0) with he
  by_cases h1 : e < 27/100
  · have h2 : e < 32/100 := h1.trans (by norm_num)
    simp only [if_pos h1, if_pos h2]
    by_cases hfire : (20 < s0 + 3 ∧ e < 32/100) ∨ 10 ≤ c0 + 1
    · rw [if_pos hfire]
      exact ⟨rfl, rfl, iff_of_true rfl hfire, (if_pos hfire).symm, fun _ => rfl⟩
    · rw [if_neg hfire]
      exact ⟨rfl, rfl, iff_of_false Bool.false_ne_true hfire, (if_neg hfire).symm,
        fun h => absurd h Bool.false_ne_true⟩
  · by_cases h2 : e < 32/100
    · simp only [if_neg h1, if_pos h2]
      by_cases hfire : (20 < s0 + 1 ∧ e < 32/100) ∨ 10 ≤ c0 + 1
      · rw [if_pos hfire]
        exact ⟨rfl, rfl, iff_of_true rfl hfire, (if_pos hfire).symm, fun _ => rfl⟩
      · rw [if_neg hfire]
        exact ⟨rfl, rfl, iff_of_false Bool.false_ne_true hfire, (if_neg hfire).symm,
          fun h => absurd h Bool.false_ne_true⟩
    · by_cases h3 : e > 35/100
      · simp only [if_neg h1, if_neg h2, if_pos h3]
        by_cases hfire : (20 < max 0 (s0 - 3) ∧ e < 32/100) ∨ (10:ℕ) ≤ 0
        · rw [if_pos hfire]
          exact ⟨rfl, rfl, iff_of_true rfl hfire, (if_pos hfire).symm, fun _ => rfl⟩
        · rw [if_neg hfire]
          exact ⟨rfl, rfl, iff_of_false Bool.false_ne_true hfire, (if_neg hfire).symm,
            fun h => absurd h Bool.false_ne_true⟩
      · simp only [if_neg h1, if_neg h2, if_neg h3]
        by_cases hfire : (20 < max 0 (s0 - 1) ∧ e < 32/100) ∨ (10:ℕ) ≤ 0
        · rw [if_pos hfire]
          exact ⟨rfl, rfl, iff_of_true rfl hfire, (if_pos hfire).symm, fun _ => rfl⟩
        · rw [if_neg hfire]
          exact ⟨rfl, rfl, iff_of_false Bool.false_ne_true hfire, (if_neg hfire).symm,
            fun h => absurd h Bool.false_ne_true⟩


theorem yawnBlock_gate (mar : ℚ) (marList0 probs0 : List ℚ) (c0 : ℕ)
    (hm : listMean (pushCap 5 mar marList0) > 2/5) :
    (yawnBlock true mar none marList0 probs0 c0).marList = pushCap 5 mar marList0 ∧
    (yawnBlock true mar none marList0 probs0 c0).probs =
      pushCap 10 (min 1 (max 0 ((listMean (pushCap 5 mar marList0) - 1/2) * 2))) probs0 ∧
    ((yawnBlock true mar none marList0 probs0 c0).fired = true ↔
      (listMean (pushCap 10 (min 1 (max 0 ((listMean (pushCap 5 mar marList0) - 1/2) * 2))) probs0)
          > 85/100 ∧ 17 ≤ c0 + 1)) ∧
    ((yawnBlock true mar none marList0 probs0 c0).fired = true →
      (yawnBlock true mar none marList0 probs0 c0).counter = 0 ∧
      (yawnBlock true mar none marList0 probs0 c0).conf =
        listMean (pushCap 10 (min 1 (max 0 ((listMean (pushCap 5 mar marList0) - 1/2) * 2))) probs0)) ∧
    ((yawnBlock true mar none marList0 probs0 c0).fired = false →
      (yawnBlock true mar none marList0 probs0 c0).counter =
        (if listMean (pushCap 10 (min 1 (max 0 ((listMean (pushCap 5 mar marList0) - 1/2) * 2))) probs0)
            > 85/100 then c0 + 1 else 0)) := by
  simp only [yawnBlock, if_pos hm]
  by_cases hp : listMean (pushCap 10 (min 1 (max 0 ((listMean (pushCap 5 mar marList0) - 1/2) * 2))) probs0) > 85/100
  · rw [if_pos hp]
    by_cases h17 : 17 ≤ c0 + 1
    · rw [if_pos h17]
      exact ⟨rfl, rfl, iff_of_true rfl ⟨hp, h17⟩, fun _ => ⟨rfl, rfl⟩,
        fun h => absurd h (by decide : ¬ (true = false))⟩
    · rw [if_neg h17]
      exact ⟨rfl, rfl, iff_of_false Bool.false_ne_true (fun h => h17 h.2),
        fun h => absurd h Bool.false_ne_true, fun _ => rfl⟩
  · rw [if_neg hp]
    have h17 : ¬ (17 ≤ (0:ℕ)) := by omega
    rw [if_neg h17]
    exact ⟨rfl, rfl, iff_of_false Bool.false_ne_true (fun h => hp h.1),
      fun h => absurd h Bool.false_ne_true, fun _ => rfl⟩

theorem yawnBlock_below (mar : ℚ) (marList0 probs0 : List ℚ) (c0 : ℕ)
    (hm : ¬ listMean (pushCap 5 mar marList0) > 2/5) :
    (yawnBlock true mar none marList0 probs0 c0).marList = pushCap 5 mar marList0 ∧
    (yawnBlock true mar none marList0 probs0 c0).probs = probs0 ∧
    (yawnBlock true mar none marList0 probs0 c0).counter = 0 ∧
    (yawnBlock true mar none marList0 probs0 c0).fired = false := by
  simp only [yawnBlock, if_neg hm]
  exact ⟨rfl, rfl, rfl, rfl⟩

theorem frameStep_confidence (inp : FrameInput) (s : AppState) :
    (frameStep inp s).2.confidence =
      (if absentSignal inp s then 1
       else if yawnSignal inp s then
         (yawnBlock inp.mouthNonempty inp.mar inp.modelProb s.mar_list s.yawn_probs s.yawn_counter).conf
       else if nodSignal inp s then 1
       else if drowsySignal inp s then
         (drowsyBlock inp.avgEar s.recent_ear_values s.drowsiness_score s.drowsy_counter).conf
       else 0) := by
  cases hf : inp.faceFound with
  | false =>
    simp only [frameStep, drowsySignal, nodSignal, yawnSignal, absentSignal,
      faceForwardSignal, hf, Bool.false_and, Bool.and_eq_true, if_false,
      Bool.false_eq_true, Bool.not_false, Bool.true_and, Bool.or_self]
  | true =>
    simp only [frameStep, drowsySignal, nodSignal, yawnSignal, absentSignal,
      faceForwardSignal, hf, if_true, Bool.true_and]

theorem frameStep_fields_face (inp : FrameInput) (s : AppState) (hf : inp.faceFound = true) :
    (frameStep inp s).1.recent_ear_values =
        (drowsyBlock inp.avgEar s.recent_ear_values s.drowsiness_score s.drowsy_counter).recent ∧
      (frameStep inp s).1.drowsiness_score =
        (drowsyBlock inp.avgEar s.recent_ear_values s.drowsiness_score s.drowsy_counter).score ∧
      (frameStep inp s).1.drowsy_counter =
        (drowsyBlock inp.avgEar s.recent_ear_values s.drowsiness_score s.drowsy_counter).counter ∧
      (frameStep inp s).1.mar_list =
        (yawnBlock inp.mouthNonempty inp.mar inp.modelProb s.mar_list s.yawn_probs s.yawn_counter).marList ∧
      (frameStep inp s).1.yawn_probs =
        (yawnBlock inp.mouthNonempty inp.mar inp.modelProb s.mar_list s.yawn_probs s.yawn_counter).probs ∧
      (frameStep inp s).1.yawn_counter =
        (yawnBlock inp.mouthNonempty inp.mar inp.modelProb s.mar_list s.yawn_probs s.yawn_counter).counter := by
  simp [frameStep, hf]

theorem frameStep_nodding_counter (inp : FrameInput) (s : AppState) :
    (frameStep inp s).1.nodding_counter =
      (if nodSignal inp s then 0
       else if inp.faceFound then (detectNodding inp.chinY s.chin_positions s.nodding_counter).counter
       else s.nodding_counter) := by
  cases hf : inp.faceFound with
  | false => simp [frameStep, nodSignal, hf]
  | true =>
    simp only [frameStep, nodSignal, hf, if_true, Bool.true_and]

theorem frameStep_stats (inp : FrameInput) (s : AppState) :
    (frameStep inp s).1.stats = update_session_stats inp.now (frameStep inp s).2.status s.stats := rfl

theorem frameStep_status (inp : FrameInput) (s : AppState) :
    (frameStep inp s).2.status =
      (if absentSignal inp s then Status.not_present
       else if yawnSignal inp s then Status.yawning
       else if drowsySignal inp s || nodSignal inp s then Status.drowsy
       else Status.focused) := by
  cases hf : inp.faceFound with
  | false =>
    simp only [frameStep, drowsySignal, nodSignal, yawnSignal, absentSignal,
      faceForwardSignal, hf, Bool.false_and, Bool.and_eq_true, if_false,
      Bool.false_eq_true, Bool.not_false, Bool.true_and, Bool.or_self]
  | true =>
    simp only [frameStep, drowsySignal, nodSignal, yawnSignal, absentSignal,
      faceForwardSignal, hf, if_true, Bool.true_and]
    cases hd : (drowsyBlock inp.avgEar s.recent_ear_values s.drowsiness_score s.drowsy_counter).fired <;>
    cases hn : (detectNodding inp.chinY s.chin_positions s.nodding_counter).fired <;>
    cases hy : (yawnBlock inp.mouthNonempty inp.mar inp.modelProb s.mar_list s.yawn_probs s.yawn_counter).fired <;>
    cases habs : ((!true || !(!(decide (inp.deviation > 25)))) &&
        decide (inp.now - (if true && !(decide (inp.deviation > 25)) then inp.now else s.last_attentive_time) > 3)) <;>
      simp_all

/-! ### Geometric feature extractor -/

/-- `np.linalg.norm` of the difference of two 2-D landmark points. -/
noncomputable def pointNorm (p q : ℚ × ℚ) : ℝ :=
  Real.sqrt (((p.1 - q.1 : ℚ) : ℝ) ^ 2 + ((p.2 - q.2 : ℚ) : ℝ) ^ 2)

open Classical in
/-- `eye_aspect_ratio` of `app.py` (lines 278-288): returns 0 when fewer
than 6 points are supplied, computes the two vertical distances `A`, `B`
and the horizontal distance `C`, and returns 0 when `C = 0`. -/
noncomputable def computeEAR (pts : List (ℚ × ℚ)) : ℝ :=
  if pts.length < 6 then 0
  else
    let A := pointNorm (pts.getD 1 (0, 0)) (pts.getD 5 (0, 0))
    let B := pointNorm (pts.getD 2 (0, 0)) (pts.getD 4 (0, 0))
    let C := pointNorm (pts.getD 0 (0, 0)) (pts.getD 3 (0, 0))
    if C = 0 then 0 else (A + B) / (2 * C)

theorem pointNorm_self (p : ℚ × ℚ) : pointNorm p p = 0 := by
  simp [pointNorm]

/-! ### Concrete scenarios and the claims -/

section Claims

attribute [local semireducible] Rat.add Rat.mul Rat.inv Rat.sub Rat.ofScientific

set_option maxRecDepth 400000

/-- A neutral frame at time `k + 1`: face found and forward, eyes in the
normal band, mouth closed, chin still, no classifier. -/
def neutralInput (k : ℕ) : FrameInput :=
  { faceFound := true, deviation := 0, avgEar := 3/10, chinY := 0, mar := 0,
    mouthNonempty := true, modelProb := none, now := (k : ℚ) + 1 }

/-- 17 frames on which the eyes are nearly shut (EAR 0.10) while the mouth
is wide open (MAR 1): the drowsiness and yawning detectors both build up. -/
def bothFireInputs : List FrameInput :=
  (List.range 17).map (fun k => { neutralInput k with avgEar := 1/10, mar := 1 })

/-- The 17th such frame. -/
def bothFireLast : FrameInput := { neutralInput 16 with avgEar := 1/10, mar := 1 }

/-- The detector state after the first 16 of those frames. -/
def bothFireState : AppState := runFrames (bothFireInputs.take 16) (initState 0)

/-- C1 counterexample: on the 17th frame of the scenario both the
drowsiness signal and the yawning signal fire and the presence signal does
not, yet the reported state is `yawning`, not `drowsy`: the code resolves
by sequential overwrite (drowsiness, then yawning, then absence), not by
the claimed first-match-wins priority with drowsy above yawning. -/
theorem C1_counterexample :
    drowsySignal bothFireLast bothFireState = true ∧
      yawnSignal bothFireLast bothFireState = true ∧
      absentSignal bothFireLast bothFireState = false ∧
      (frameStep bothFireLast bothFireState).2.status = Status.yawning ∧
      Status.yawning ≠ Status.drowsy := by
  decide

/-- C1 (amended): the arbiter resolves the detector outputs to exactly one
state by last-write-wins over the sequence drowsy (including nodding),
yawning, not_present, i.e. with effective priority not_present > yawning >
drowsy > focused; on any frame where no detector fires the state is
focused with confidence 0. -/
theorem C1_arbiter_last_write_wins (inp : FrameInput) (s : AppState) :
    (frameStep inp s).2.status =
        (if absentSignal inp s then Status.not_present
         else if yawnSignal inp s then Status.yawning
         else if drowsySignal inp s || nodSignal inp s then Status.drowsy
         else Status.focused) ∧
      (absentSignal inp s = false → yawnSignal inp s = false →
        drowsySignal inp s = false → nodSignal inp s = false →
        (frameStep inp s).2.status = Status.focused ∧
          (frameStep inp s).2.confidence = 0) := by
  refine ⟨frameStep_status inp s, fun ha hy hd hn => ⟨?_, ?_⟩⟩
  · rw [frameStep_status inp s, ha, hy, hd, hn]
    simp
  · rw [frameStep_confidence inp s, ha, hy, hd, hn]
    simp

/-- C1 witness: on a neutral frame from the initial state no detector
fires and the arbiter reports focused with confidence 0. -/
theorem C1_witness :
    (frameStep (neutralInput 0) (initState 0)).2.status = Status.focused ∧
      (frameStep (neutralInput 0) (initState 0)).2.confidence = 0 :=
  (C1_arbiter_last_write_wins (neutralInput 0) (initState 0)).2
    (by decide) (by decide) (by decide) (by decide)

/-- 50 frames whose per-frame EAR alternates between 0.20 and 0.40, all
other signals neutral. -/
def altEarInputs : List FrameInput :=
  (List.range 50).map (fun k =>
    { neutralInput k with avgEar := if k % 2 = 0 then 1/5 else 2/5 })

/-- C2 counterexample: with EAR alternating between 0.20 and 0.40 for 50
frames from the initial state, the drowsiness detector does fire: its
signal is true on frame 10 and `drowsy` appears in the reported trace. -/
theorem C2_counterexample :
    drowsySignal (altEarInputs.getD 9 (neutralInput 9))
        (runFrames (altEarInputs.take 9) (initState 0)) = true ∧
      Status.drowsy ∈ statusTrace altEarInputs (initState 0) := by
  decide

/-- C2 (amended): with EAR alternating between 0.20 and 0.40 on every
frame for 50 frames from the initial state, the smoothed average stays in
the borderline band below 0.32, so the consecutive-low-EAR count grows
every frame and the detector fires `drowsy` on every frame from frame 10
through frame 50 (the first 9 frames are focused). -/
theorem C2_oscillation_fires_drowsy :
    statusTrace altEarInputs (initState 0) =
      List.replicate 9 Status.focused ++ List.replicate 41 Status.drowsy := by
  decide

/-- 7 frames whose EAR signal is the degenerate value 0. -/
def zeroEarInputs : List FrameInput :=
  (List.range 7).map (fun k => { neutralInput k with avgEar := 0 })

/-- C3 counterexample: on a sequence of frames whose EAR evaluates to the
degenerate value 0, the drowsiness detector does fire `drowsy` (on frame
7, via the score path): zero EAR is treated as fully closed eyes, not as
inconclusive. -/
theorem C3_counterexample :
    Status.drowsy ∈ statusTrace zeroEarInputs (initState 0) := by
  decide

/-- C3 (amended): when landmark data is malformed or incomplete (fewer
points than the eye-aspect-ratio needs, or zero horizontal distance), the
feature extractor returns 0 rather than raising; but the drowsiness
detector treats a constant zero EAR as closed eyes: from the initial state
it reports focused for 6 frames and fires `drowsy` on frame 7. -/
theorem C3_degenerate_zero :
    (∀ pts : List (ℚ × ℚ), pts.length < 6 → computeEAR pts = 0) ∧
      (∀ pts : List (ℚ × ℚ), pts.getD 0 (0, 0) = pts.getD 3 (0, 0) →
        computeEAR pts = 0) ∧
      statusTrace zeroEarInputs (initState 0) =
        List.replicate 6 Status.focused ++ [Status.drowsy] := by
  refine ⟨fun pts h => ?_, fun pts h => ?_, by decide⟩
  · simp [computeEAR, h]
  · simp only [computeEAR, h, pointNorm_self]
    simp

/-- A 6-point eye whose first and fourth points coincide (zero horizontal
distance). -/
def degeneratePts : List (ℚ × ℚ) := [(1, 1), (2, 3), (4, 5), (1, 1), (0, 2), (7, 8)]

/-- C3 witness: the extractor returns 0 on an empty landmark list and on a
6-point eye with coinciding horizontal corners. -/
theorem C3_witness : computeEAR [] = 0 ∧ computeEAR degeneratePts = 0 :=
  ⟨C3_degenerate_zero.1 [] (by decide), C3_degenerate_zero.2.1 degeneratePts (by decide)⟩

/-- The state after one frame with droopy eyes (EAR 0.10): the drowsiness
score is 3. -/
def oneDroopyFrameState : AppState :=
  (frameStep { neutralInput 0 with avgEar := 1/10 } (initState 0)).1

/-- C4 counterexample: after `start_session` runs on a state whose
drowsiness score is 3, the score is still 3, not its initial value 0:
the reset reinitializes only SessionStats, never the detector state. -/
theorem C4_counterexample :
    (startSessionReset 5 oneDroopyFrameState).drowsiness_score = 3 ∧
      (3 : ℤ) ≠ 0 := by
  decide

/-- C4 (amended): `start_session` rebuilds SessionStats at its initial
values (all counters and duration buckets 0, last state focused, state
start time set to the reset time) and leaves every detector-state
component (yawn counter, last-attentive time, yawn-probability window,
drowsy counter, drowsiness score, EAR window, chin window, nodding
counter, MAR window) unchanged. -/
theorem C4_reset_stats_only (now : ℚ) (s : AppState) :
    (startSessionReset now s).stats = initSessionStats now ∧
      (startSessionReset now s).yawn_counter = s.yawn_counter ∧
      (startSessionReset now s).last_attentive_time = s.last_attentive_time ∧
      (startSessionReset now s).yawn_probs = s.yawn_probs ∧
      (startSessionReset now s).drowsy_counter = s.drowsy_counter ∧
      (startSessionReset now s).drowsiness_score = s.drowsiness_score ∧
      (startSessionReset now s).recent_ear_values = s.recent_ear_values ∧
      (startSessionReset now s).chin_positions = s.chin_positions ∧
      (startSessionReset now s).nodding_counter = s.nodding_counter ∧
      (startSessionReset now s).mar_list = s.mar_list :=
  ⟨rfl, rfl, rfl, rfl, rfl, rfl, rfl, rfl, rfl, rfl⟩

def c5Input : FrameInput := { neutralInput 0 with avgEar := 2/5 }

def c5State : AppState := { initState 0 with drowsiness_score := 10 }

/-- C5 counterexample: on a frame whose smoothed EAR is 0.40 with score
10, the code's post-frame score is 5 (the four bands give 7, then the
not-fired branch subtracts 2 more), so the claimed four-band update alone
does not describe the per-frame score. -/
theorem C5_counterexample :
    (frameStep c5Input c5State).1.drowsiness_score = 5 ∧
      specBandScore (listMean (pushCap 10 (2/5) [])) 10 = 7 ∧
      (5 : ℤ) ≠ 7 := by
  decide

/-- C5 (amended): per frame with a face found, with e the smoothed
average EAR over the last 10 samples, the score and count update by the
four bands (e < 0.27 adds 3 and counts; 0.27 ≤ e < 0.32 adds 1 and
counts; e > 0.35 subtracts 3 with floor 0 and resets the count; otherwise
subtracts 1 with floor 0 and resets); the detector fires exactly when
(post-band score > 20 and e < 0.32) or count ≥ 10, with confidence
min(1, score / 25); when it does NOT fire and e > 0.33 the score is
additionally decremented by 2 (floor 0). -/
theorem C5_drowsiness_update (inp : FrameInput) (s : AppState)
    (hf : inp.faceFound = true) :
    (frameStep inp s).1.recent_ear_values = pushCap 10 inp.avgEar s.recent_ear_values ∧
      (frameStep inp s).1.drowsy_counter =
        specBandCount (listMean (pushCap 10 inp.avgEar s.recent_ear_values)) s.drowsy_counter ∧
      (drowsySignal inp s = true ↔
        ((20 < specBandScore (listMean (pushCap 10 inp.avgEar s.recent_ear_values)) s.drowsiness_score ∧
            listMean (pushCap 10 inp.avgEar s.recent_ear_values) < 32/100) ∨
          10 ≤ specBandCount (listMean (pushCap 10 inp.avgEar s.recent_ear_values)) s.drowsy_counter)) ∧
      (frameStep inp s).1.drowsiness_score =
        (if (20 < specBandScore (listMean (pushCap 10 inp.avgEar s.recent_ear_values)) s.drowsiness_score ∧
              listMean (pushCap 10 inp.avgEar s.recent_ear_values) < 32/100) ∨
            10 ≤ specBandCount (listMean (pushCap 10 inp.avgEar s.recent_ear_values)) s.drowsy_counter
         then specBandScore (listMean (pushCap 10 inp.avgEar s.recent_ear_values)) s.drowsiness_score
         else if listMean (pushCap 10 inp.avgEar s.recent_ear_values) > 33/100
         then max 0 (specBandScore (listMean (pushCap 10 inp.avgEar s.recent_ear_values)) s.drowsiness_score - 2)
         else specBandScore (listMean (pushCap 10 inp.avgEar s.recent_ear_values)) s.drowsiness_score) ∧
      (drowsySignal inp s = true → nodSignal inp s = false → yawnSignal inp s = false →
        absentSignal inp s = false →
        (frameStep inp s).2.status = Status.drowsy ∧
          (frameStep inp s).2.confidence =
            min 1 ((specBandScore (listMean (pushCap 10 inp.avgEar s.recent_ear_values)) s.drowsiness_score : ℚ) / 25)) := by
  obtain ⟨h1, h2, h3, h4, h5, h6⟩ := frameStep_fields_face inp s hf
  obtain ⟨b1, b2, b3, b4, b5⟩ :=
    drowsyBlock_spec inp.avgEar s.recent_ear_values s.drowsiness_score s.drowsy_counter
  have hds : drowsySignal inp s =
      (drowsyBlock inp.avgEar s.recent_ear_values s.drowsiness_score s.drowsy_counter).fired := by
    simp [drowsySignal, hf]
  refine ⟨h1.trans b1, h3.trans b2, ?_, h2.trans b4, ?_⟩
  · rw [hds]
    exact b3
  · intro hd hn hy ha
    have hfired :
        (drowsyBlock inp.avgEar s.recent_ear_values s.drowsiness_score s.drowsy_counter).fired = true := by
      rw [← hds]; exact hd
    constructor
    · rw [frameStep_status inp s, ha, hy, hd]
      simp
    · rw [frameStep_confidence inp s, ha, hy, hn, hd]
      simpa using b5 hfired


/-- C5 witness: one droopy frame from the initial state gives count 1
and score 3. -/
theorem C5_witness :
    (frameStep { neutralInput 0 with avgEar := 1/10 } (initState 0)).1.drowsy_counter = 1 ∧
      (frameStep { neutralInput 0 with avgEar := 1/10 } (initState 0)).1.drowsiness_score = 3 := by
  have h := C5_drowsiness_update { neutralInput 0 with avgEar := 1/10 } (initState 0) rfl
  exact ⟨h.2.1.trans (by decide), h.2.2.2.1.trans (by decide)⟩

/-- C6: on every qualifying frame (smoothed MAR > 0.4) with the
classifier unavailable, the pushed yawn probability is
clamp((MAR − 0.5) × 2, 0, 1); the probability window has capacity 10; the
detector fires exactly when the smoothed average exceeds 0.85 and the
consecutive counter reaches 17, after which the counter resets to 0 (so
an identical subsequent episode fires again); a non-qualifying frame
resets the counter and leaves the probability window unchanged. -/
theorem C6_yawning_detector (inp : FrameInput) (s : AppState)
    (hf : inp.faceFound = true) (hm : inp.mouthNonempty = true)
    (hmp : inp.modelProb = none) :
    (listMean (pushCap 5 inp.mar s.mar_list) > 2/5 →
      (frameStep inp s).1.mar_list = pushCap 5 inp.mar s.mar_list ∧
      (frameStep inp s).1.yawn_probs =
        pushCap 10 (min 1 (max 0 ((listMean (pushCap 5 inp.mar s.mar_list) - 1/2) * 2))) s.yawn_probs ∧
      (yawnSignal inp s = true ↔
        (listMean (pushCap 10 (min 1 (max 0 ((listMean (pushCap 5 inp.mar s.mar_list) - 1/2) * 2))) s.yawn_probs) > 85/100 ∧
          17 ≤ s.yawn_counter + 1)) ∧
      (yawnSignal inp s = true → (frameStep inp s).1.yawn_counter = 0) ∧
      (yawnSignal inp s = false →
        (frameStep inp s).1.yawn_counter =
          (if listMean (pushCap 10 (min 1 (max 0 ((listMean (pushCap 5 inp.mar s.mar_list) - 1/2) * 2))) s.yawn_probs) > 85/100
           then s.yawn_counter + 1 else 0))) ∧
    (¬ listMean (pushCap 5 inp.mar s.mar_list) > 2/5 →
      (frameStep inp s).1.yawn_counter = 0 ∧
      (frameStep inp s).1.yawn_probs = s.yawn_probs ∧
      yawnSignal inp s = false) ∧
    (s.yawn_probs.length ≤ 10 → ((frameStep inp s).1.yawn_probs).length ≤ 10) := by
  have hyb : yawnBlock inp.mouthNonempty inp.mar inp.modelProb s.mar_list s.yawn_probs s.yawn_counter
      = yawnBlock true inp.mar none s.mar_list s.yawn_probs s.yawn_counter := by
    rw [hm, hmp]
  obtain ⟨h1, h2, h3, h4, h5, h6⟩ := frameStep_fields_face inp s hf
  have hys : yawnSignal inp s =
      (yawnBlock true inp.mar none s.mar_list s.yawn_probs s.yawn_counter).fired := by
    simp [yawnSignal, hf, hyb]
  refine ⟨fun hgate => ?_, fun hgate => ?_, fun hlen => ?_⟩
  · obtain ⟨g1, g2, g3, g4, g5⟩ := yawnBlock_gate inp.mar s.mar_list s.yawn_probs s.yawn_counter hgate
    refine ⟨(h4.trans (by rw [hyb])).trans g1, (h5.trans (by rw [hyb])).trans g2, ?_, ?_, ?_⟩
    · rw [hys]
      exact g3
    · intro hfired
      exact (h6.trans (by rw [hyb])).trans (g4 (by rw [← hys]; exact hfired)).1
    · intro hnot
      exact (h6.trans (by rw [hyb])).trans (g5 (by rw [← hys]; exact hnot))
  · obtain ⟨g1, g2, g3, g4⟩ := yawnBlock_below inp.mar s.mar_list s.yawn_probs s.yawn_counter hgate
    exact ⟨(h6.trans (by rw [hyb])).trans g3, (h5.trans (by rw [hyb])).trans g2,
      by rw [hys]; exact g4⟩
  · by_cases hgate : listMean (pushCap 5 inp.mar s.mar_list) > 2/5
    · obtain ⟨g1, g2, g3, g4, g5⟩ := yawnBlock_gate inp.mar s.mar_list s.yawn_probs s.yawn_counter hgate
      rw [(h5.trans (by rw [hyb])).trans g2]
      exact pushCap_length_le 10 _ _ hlen
    · obtain ⟨g1, g2, g3, g4⟩ := yawnBlock_below inp.mar s.mar_list s.yawn_probs s.yawn_counter hgate
      rw [(h5.trans (by rw [hyb])).trans g2]
      exact hlen

def c6Input : FrameInput := { neutralInput 0 with mar := 1 }

def c6State : AppState := { initState 0 with yawn_counter := 16 }

/-- C6 witness: a qualifying frame with fallback probability 1 from a
counter of 16 fires and resets the counter to 0. -/
theorem C6_witness :
    yawnSignal c6Input c6State = true ∧
      (frameStep c6Input c6State).1.yawn_counter = 0 := by
  have h := C6_yawning_detector c6Input c6State rfl rfl rfl
  have hgate := h.1 (by decide)
  have hfired : yawnSignal c6Input c6State = true := hgate.2.2.1.mpr (by decide)
  exact ⟨hfired, hgate.2.2.2.1 hfired⟩

/-- C7: starting from a fresh reset at `t0`, the sum of the four
per-state duration buckets always equals the time of the last aggregator
update minus `t0`; after the final flush at session end it equals the
flush time minus `t0` exactly; hence at any query point within `tol` of
the last update, the bucket sum equals total elapsed session time within
`tol` (one frame-interval tolerance). -/
theorem C7_duration_sum (t0 : ℚ) (us : List (ℚ × Status)) :
    bucketSum (runUpdates us (initSessionStats t0)) =
        (runUpdates us (initSessionStats t0)).state_start_time - t0 ∧
      (∀ now : ℚ,
        bucketSum (endSessionFlush now (runUpdates us (initSessionStats t0))) = now - t0) ∧
      (∀ q tol : ℚ, (runUpdates us (initSessionStats t0)).state_start_time ≤ q →
        q - (runUpdates us (initSessionStats t0)).state_start_time ≤ tol →
        |q - t0 - bucketSum (runUpdates us (initSessionStats t0))| ≤ tol) := by
  have key := runUpdates_invariant us (initSessionStats t0)
  have h0 : bucketSum (initSessionStats t0) = 0 := by
    simp [bucketSum, initSessionStats]
  have hst : (initSessionStats t0).state_start_time = t0 := rfl
  rw [h0, hst] at key
  have main : bucketSum (runUpdates us (initSessionStats t0)) =
      (runUpdates us (initSessionStats t0)).state_start_time - t0 := by linarith
  refine ⟨main, fun now => ?_, fun q tol h1 h2 => ?_⟩
  · rw [endFlush_bucketSum, main]
    ring
  · rw [main]
    have heq : q - t0 - ((runUpdates us (initSessionStats t0)).state_start_time - t0)
        = q - (runUpdates us (initSessionStats t0)).state_start_time := by ring
    rw [heq, abs_of_nonneg (by linarith)]
    exact h2

/-- C7 witness: one update at time 1 from a reset at 0, flushed at time
2, gives bucket sum 2; querying at time 3/2 is within tolerance 1. -/
theorem C7_witness :
    bucketSum (endSessionFlush 2 (runUpdates [(1, Status.drowsy)] (initSessionStats 0))) = 2 - 0 ∧
      |3/2 - 0 - bucketSum (runUpdates [(1, Status.drowsy)] (initSessionStats 0))| ≤ 1 := by
  have h := C7_duration_sum 0 [(1, Status.drowsy)]
  exact ⟨h.2.1 2, h.2.2 (3/2) 1 (by decide) (by decide)⟩

/-- C8: a frame that stays in the same state changes no event counter; a
transition edge increments exactly the counter of the entered state
(yawn_count for yawning, drowsy_count for drowsy, distraction_count for
not_present) by one; over any update sequence from a reset, each counter
equals the number of transition edges into its state. -/
theorem C8_transition_edge_counters (now : ℚ) (q : Status) (st : SessionStats)
    (t0 : ℚ) (us : List (ℚ × Status)) :
    (q = st.last_state →
      (update_session_stats now q st).yawn_count = st.yawn_count ∧
      (update_session_stats now q st).drowsy_count = st.drowsy_count ∧
      (update_session_stats now q st).distraction_count = st.distraction_count ∧
      (update_session_stats now q st).not_present_count = st.not_present_count) ∧
    (q ≠ st.last_state →
      (update_session_stats now q st).yawn_count =
          st.yawn_count + (if q = Status.yawning then 1 else 0) ∧
      (update_session_stats now q st).drowsy_count =
          st.drowsy_count + (if q = Status.drowsy then 1 else 0) ∧
      (update_session_stats now q st).distraction_count =
          st.distraction_count + (if q = Status.not_present then 1 else 0) ∧
      (update_session_stats now q st).not_present_count = st.not_present_count) ∧
    ((runUpdates us (initSessionStats t0)).yawn_count =
        countEdgesInto Status.yawning Status.focused (us.map Prod.snd) ∧
      (runUpdates us (initSessionStats t0)).drowsy_count =
        countEdgesInto Status.drowsy Status.focused (us.map Prod.snd) ∧
      (runUpdates us (initSessionStats t0)).distraction_count =
        countEdgesInto Status.not_present Status.focused (us.map Prod.snd)) := by
  obtain ⟨c1, c2, c3, c4⟩ := uss_counts now q st
  refine ⟨fun hq => ?_, fun hq => ?_, ?_, ?_, ?_⟩
  · subst hq
    simp [c1, c2, c3, c4]
  · simp [c1, c2, c3, c4, hq]
  · simpa [initSessionStats] using runUpdates_yawn_count us (initSessionStats t0)
  · simpa [initSessionStats] using runUpdates_drowsy_count us (initSessionStats t0)
  · simpa [initSessionStats] using runUpdates_distraction_count us (initSessionStats t0)

/-- C8 witness: staying focused changes nothing; entering drowsy from
focused increments drowsy_count once. -/
theorem C8_witness :
    (update_session_stats 1 Status.focused (initSessionStats 0)).yawn_count =
        (initSessionStats 0).yawn_count ∧
      (update_session_stats 1 Status.drowsy (initSessionStats 0)).drowsy_count =
        (initSessionStats 0).drowsy_count + 1 := by
  have h := C8_transition_edge_counters 1 Status.focused (initSessionStats 0) 0 []
  have h' := C8_transition_edge_counters 1 Status.drowsy (initSessionStats 0) 0 []
  refine ⟨(h.1 rfl).1, ?_⟩
  have h2 := (h'.2.1 (by decide)).2.1
  simpa using h2

/-- C9: the nodding counter stays ≥ 0 after every detector call and
every frame; once the FIFO holds ≥ 5 samples the counter is incremented
when the range of the 5 most recent samples exceeds 15 pixels and
otherwise decremented with floor 0, and the detector fires exactly when
the counter exceeds 5; sustained oscillation with window range > 15 over
every evaluation raises the counter by one per frame, so ≥ 6 such frames
from a zero counter make the detector fire. -/
theorem C9_nodding_detector :
    (∀ (y : ℚ) (pos : List ℚ) (c : ℤ), 0 ≤ c → 0 ≤ (detectNodding y pos c).counter) ∧
      (∀ (inp : FrameInput) (s : AppState), 0 ≤ s.nodding_counter →
        0 ≤ (frameStep inp s).1.nodding_counter) ∧
      (∀ (y : ℚ) (pos : List ℚ) (c : ℤ), 5 ≤ (pushCap 10 y pos).length →
        (detectNodding y pos c).counter =
            (if listMax (lastN 5 (pushCap 10 y pos)) - listMin (lastN 5 (pushCap 10 y pos)) > 15
             then c + 1 else max 0 (c - 1)) ∧
          ((detectNodding y pos c).fired = true ↔ (detectNodding y pos c).counter > 5)) ∧
      (∀ (ys pos : List ℚ) (c : ℤ), sustainedLarge ys pos = true →
        (nodRunState ys (pos, c)).2 = c + ys.length) ∧
      (∀ (ys pos : List ℚ), sustainedLarge ys pos = true → 6 ≤ ys.length →
        (nodTrace ys (pos, 0)).getLast? = some true) := by
  refine ⟨detectNodding_counter_nonneg, ?_, detectNodding_step, nodRunState_counter, ?_⟩
  · intro inp s h
    rw [frameStep_nodding_counter]
    split
    · norm_num
    · split
      · exact detectNodding_counter_nonneg _ _ _ h
      · exact h
  · intro ys pos hsus hlen
    apply nodTrace_getLast ys pos 0 hsus
    · intro he
      rw [he] at hlen
      simp at hlen
    · have hc : (6:ℤ) ≤ (ys.length : ℤ) := by exact_mod_cast hlen
      omega

def oscSamples : List ℚ := [20, 0, 20, 0, 20, 0]

def oscWindow : List ℚ := [0, 20, 0, 20]

/-- C9 witness: a 20-pixel chin oscillation sustained for 6 frames from
a zero counter fires the detector. -/
theorem C9_witness :
    (0:ℤ) ≤ (detectNodding 0 [] 0).counter ∧
      (nodRunState oscSamples (oscWindow, 0)).2 = 6 ∧
      (nodTrace oscSamples (oscWindow, 0)).getLast? = some true := by
  refine ⟨C9_nodding_detector.1 0 [] 0 le_rfl, ?_, ?_⟩
  · have h := C9_nodding_detector.2.2.2.1 oscSamples oscWindow 0 (by decide)
    simpa using h
  · exact C9_nodding_detector.2.2.2.2 oscSamples oscWindow (by decide) (by decide)

/-- C10: no aggregator operation ever changes not_present_time or
not_present_count (they stay 0 for the lifetime of every session); time
spent in not_present is flushed into distracted_time, time spent in
yawning into drowsy_time, and a transition into not_present increments
distraction_count. -/
theorem C10_not_present_buckets :
    (∀ (now : ℚ) (q : Status) (st : SessionStats),
      (update_session_stats now q st).not_present_time = st.not_present_time ∧
      (update_session_stats now q st).not_present_count = st.not_present_count) ∧
    (∀ (now : ℚ) (st : SessionStats),
      (endSessionFlush now st).not_present_time = st.not_present_time ∧
      (endSessionFlush now st).not_present_count = st.not_present_count) ∧
    (∀ (now : ℚ) (q : Status) (st : SessionStats), st.last_state = Status.not_present →
      (update_session_stats now q st).distracted_time =
        st.distracted_time + (now - st.state_start_time)) ∧
    (∀ (now : ℚ) (q : Status) (st : SessionStats), st.last_state = Status.yawning →
      (update_session_stats now q st).drowsy_time =
        st.drowsy_time + (now - st.state_start_time)) ∧
    (∀ (now : ℚ) (q : Status) (st : SessionStats), q = Status.not_present →
      q ≠ st.last_state →
      (update_session_stats now q st).distraction_count = st.distraction_count + 1) ∧
    (∀ (t0 now : ℚ) (us : List (ℚ × Status)),
      (endSessionFlush now (runUpdates us (initSessionStats t0))).not_present_time = 0 ∧
      (endSessionFlush now (runUpdates us (initSessionStats t0))).not_present_count = 0) := by
  refine ⟨uss_not_present_fields, endFlush_not_present_fields, ?_, ?_, ?_, ?_⟩
  · intro now q st h
    cases q <;> simp [update_session_stats, h]
  · intro now q st h
    cases q <;> simp [update_session_stats, h]
  · intro now q st hq hne
    have := (uss_counts now q st).2.2.1
    rw [this, if_pos ⟨hq, hne⟩]
  · intro t0 now us
    constructor
    · rw [(endFlush_not_present_fields now _).1, (runUpdates_not_present_fields us _).1]
      rfl
    · rw [(endFlush_not_present_fields now _).2, (runUpdates_not_present_fields us _).2]
      rfl

def npState : SessionStats := update_session_stats 1 Status.not_present (initSessionStats 0)

def ywState : SessionStats := update_session_stats 1 Status.yawning (initSessionStats 0)

/-- C10 witness: flushing out of not_present adds to distracted_time,
flushing out of yawning adds to drowsy_time, and entering not_present
increments distraction_count. -/
theorem C10_witness :
    (update_session_stats 2 Status.focused npState).distracted_time =
        npState.distracted_time + (2 - npState.state_start_time) ∧
      (update_session_stats 2 Status.focused ywState).drowsy_time =
        ywState.drowsy_time + (2 - ywState.state_start_time) ∧
      (update_session_stats 1 Status.not_present (initSessionStats 0)).distraction_count =
        (initSessionStats 0).distraction_count + 1 := by
  refine ⟨C10_not_present_buckets.2.2.1 2 Status.focused npState (by decide),
    C10_not_present_buckets.2.2.2.1 2 Status.focused ywState (by decide),
    C10_not_present_buckets.2.2.2.2.1 1 Status.not_present (initSessionStats 0) rfl (by decide)⟩

end Claims

end AttentionMonitor
